import Mathlib

/-!
Verification of the `calibre-rest` command orchestration engine
(`calibre_rest/calibre.py`) against its natural-language specification.

The source is shallowly embedded: pure string manipulation becomes Lean
functions on `String`/`List Char`, the stateful command runner becomes
explicit lock-state passing, and the external process / JSON library are
abstracted as an environment record.  Python exceptions are modelled with
`Except`.
-/

namespace CalibreRest

/-! ## Python string primitives used by the source -/

/-- Characters treated as whitespace by Python `str.strip()`. -/
def pyWhitespace (c : Char) : Bool :=
  c = ' ' || c = '\t' || c = '\n' || c = '\x0b' || c = '\x0c' || c = '\r'

/-- Strip the characters satisfying `p` from both ends of a list. -/
def stripWhile (p : Char → Bool) (l : List Char) : List Char :=
  ((l.dropWhile p).reverse.dropWhile p).reverse

/-- Model of Python `str.strip()` (no argument: strips whitespace). -/
def pyStrip (s : String) : String :=
  String.mk (stripWhile pyWhitespace s.data)

/-- Model of Python `str.strip("\n ")` as used in `_run_add`. -/
def pyStripNlSpace (s : String) : String :=
  String.mk (stripWhile (fun c => c = '\n' || c = ' ') s.data)

/-- `prefEq pat l` holds when `pat` is an initial segment of `l`
(model of a regex literal anchored with a caret). -/
def prefEq : List Char → List Char → Bool
  | [], _ => true
  | _ :: _, [] => false
  | p :: ps, c :: cs => p = c && prefEq ps cs

/-- Model of Python `"a, b".split(", ")`: split on non-overlapping
occurrences of the two-character separator `", "`, left to right,
keeping empty parts.  `acc` is the current token, reversed. -/
def splitCSAux : List Char → List Char → List String
  | acc, [] => [String.mk acc.reverse]
  | acc, ',' :: ' ' :: rest => String.mk acc.reverse :: splitCSAux [] rest
  | acc, c :: rest => splitCSAux (c :: acc) rest

/-- Python `s.split(", ")`. -/
def pySplitCS (s : String) : List String :=
  splitCSAux [] s.data

/-- Model of Python `" " in s` (substring test with a single space). -/
def containsSpace (s : String) : Bool :=
  s.data.any (fun c => c = ' ')

/-- Characters `shlex.quote` considers safe: ASCII letters, digits and
underscore, plus at-sign, percent, plus, equals, colon, comma, dot, slash
and hyphen. -/
def shlexSafeChar (c : Char) : Bool :=
  c.isAlpha || c.isDigit || c = '_' || c = '@' || c = '%' || c = '+' ||
  c = '=' || c = ':' || c = ',' || c = '.' || c = '/' || c = '-'

/-- `shlex.quote`'s `_find_unsafe` test: some character of `s` is unsafe. -/
def shlexFindUnsafe (s : String) : Bool :=
  s.data.any (fun c => !shlexSafeChar c)

/-- The single-quote escaping performed by `shlex.quote`:
each apostrophe is replaced by the five characters quote-dquote-quote-dquote-quote. -/
def shlexEscape (s : String) : String :=
  String.mk (s.data.foldr
    (fun c acc =>
      if c = '\x27' then '\x27' :: '\x22' :: '\x27' :: '\x22' :: '\x27' :: acc
      else c :: acc) [])

/-- Model of the CPython `shlex.quote` function. -/
def shlexQuoteStr (s : String) : String :=
  if s = "" then "\x27\x27"
  else if shlexFindUnsafe s then "\x27" ++ shlexEscape s ++ "\x27"
  else s

/-! ## Module-level helpers of `calibre.py` -/

/-- `join_list(lst, sep)`: trim every element, join with `sep`. -/
def join_list (lst : List String) (sep : String) : String :=
  sep.intercalate (lst.map pyStrip)

/-- `quote(s)`: strip `s`, then shell-quote it when it contains a space,
otherwise leave it bare. -/
def quote (s : String) : String :=
  let t := pyStrip s
  if containsSpace t then shlexQuoteStr t else t

/-- The errors raised by the wrapper.  `CalibreConcurrencyError`,
`CalibreRuntimeError` and `ExistingItemError` live in `calibre_rest/errors.py`,
which is not under `src/`; modelled from the spec: distinct error types for
executable-missing, concurrency conflict, runtime failure (command, exit code,
stdout, stderr) and already-exists, plus the builtin `ValueError`,
`FileNotFoundError` and bare `Exception`. -/
inductive PyErr where
  | valueError (msg : String)
  | fileNotFound (msg : String)
  | concurrencyError (cmd : String) (code : Int)
  | runtimeError (cmd : String) (code : Int) (stdout stderr : String)
  | existingItem (msg : String)
  | unexpected (msg : String)
  deriving DecidableEq, Repr

/-- `validate_id(id)`: raise `ValueError` for any id that is not positive. -/
def validate_id (id : Int) : Except PyErr Unit :=
  if id ≤ 0 then
    .error (.valueError ("Value " ++ toString id ++ " cannot be <= 0"))
  else .ok ()

/-! ## Output classification regexes of `CalibreWrapper`

Each compiled regex of the source is modelled by an exact matcher.
All the patterns are anchored with a caret and `re.search` is used without
`re.MULTILINE`, so each pattern can only match at the start of the string. -/

/-- `BOOK_ADDED_REGEX = ^Added book ids: ([0-9,]+)` — note the character
class holds digits and the comma but NOT the space. -/
def matchAdded (out : String) : Option String :=
  if prefEq "Added book ids: ".data out.data then
    let g := (out.data.drop 16).takeWhile (fun c => c.isDigit || c = ',')
    if g.isEmpty then none else some (String.mk g)
  else none

/-- `BOOK_MERGED_REGEX = ^Merged book ids: ([0-9, ]+)` — here the character
class holds digits, the comma and the space. -/
def matchMerged (out : String) : Option String :=
  if prefEq "Merged book ids: ".data out.data then
    let g := (out.data.drop 17).takeWhile (fun c => c.isDigit || c = ',' || c = ' ')
    if g.isEmpty then none else some (String.mk g)
  else none

/-- `BOOK_IGNORED_REGEX = ^The following books were not added as they already exist.*`
— matches exactly when the string starts with the literal prefix. -/
def matchIgnored (stderr : String) : Bool :=
  prefEq "The following books were not added as they already exist".data stderr.data

/-- Scan for `.*is running.` within one line: an occurrence of the literal
`is running` that is not preceded by a newline and is followed by at least one
non-newline character. -/
def concTail : List Char → Bool
  | [] => false
  | c :: rest =>
    (prefEq "is running".data (c :: rest) &&
      (match rest.drop 9 with
       | d :: _ => decide (d ≠ '\n')
       | [] => false)) ||
    (decide (c ≠ '\n') && concTail rest)

/-- `CONCURRENCY_ERR_REGEX = ^Another calibre program.*is running.` -/
def matchConcurrency (stderr : String) : Bool :=
  prefEq "Another calibre program".data stderr.data &&
  concTail (stderr.data.drop 23)

/-- Classification cascade at the end of `_run_add`, given the stdout and
stderr of the `calibredb add` invocation.  Tried in source order: the
already-exists pattern on stderr, then the merged pattern on stdout, then the
added pattern on stdout; otherwise the generic parse-failure `Exception`. -/
def run_add_classify (out stderr : String) : Except PyErr (List String) :=
  if matchIgnored stderr then
    let out := pyStripNlSpace out
    .error (.existingItem
      ("Book " ++ out ++ " already exists. Include automerge=overwrite to overwrite."))
  else
    match matchMerged out with
    | some g =>
      let book_ids := pySplitCS g
      if book_ids.length < 1 then
        .error (.unexpected "No books were merged, something went wrong...")
      else .ok book_ids
    | none =>
      match matchAdded out with
      | some g =>
        let book_ids := pySplitCS g
        if book_ids.length < 1 then
          .error (.unexpected "No books were added, something went wrong...")
        else .ok book_ids
      | none =>
        .error (.unexpected "Could not parse calibredb add output, something went wrong...")

/-! ## The domain record

`calibre_rest/models.py` is not under `src/`; the record shape is taken from
the spec and from the attribute names the source reads off it. -/

/-- Modelled from the spec: the `BookRecord` data model (`models.py` is not
under `src/`).  Scalar fields are strings with `""` for unset (Python falsy),
list fields are lists with `[]` for unset, the identifiers mapping is an
insertion-ordered association list, and `id` is an integer with `0` for
unset.  Numeric fields (`series_index`, `rating`, `size`) are carried as
their rendered text since the source only ever applies `str()` to them. -/
structure Book where
  id : Int := 0
  title : String := ""
  authors : List String := []
  author_sort : String := ""
  comments : String := ""
  cover : String := ""
  identifiers : List (String × String) := []
  isbn : String := ""
  languages : List String := []
  pubdate : String := ""
  publisher : String := ""
  rating : String := ""
  series : String := ""
  series_index : String := ""
  size : String := ""
  tags : List String := []
  timestamp : String := ""
  deriving DecidableEq, Repr

/-! ## Command construction -/

/-- The constructor-resolved part of `CalibreWrapper`: executable path,
library path, optional credentials. -/
structure Wrapper where
  cdb : String
  lib : String
  username : String := ""
  password : String := ""
  deriving DecidableEq, Repr

/-- `self.cdb_with_lib` as computed in `__init__`: base command plus
credentials when both username and password are non-empty. -/
def Wrapper.cdb_with_lib (w : Wrapper) : String :=
  let base := w.cdb ++ " --with-library " ++ w.lib
  if w.username ≠ "" && w.password ≠ "" then
    base ++ " --username " ++ w.username ++ " --password " ++ w.password
  else base

/-- Append one rendered add flag: `cmd += f" --{flag_name} {quote(str(value))}"`.
The identifiers branch uses the same shape with `value` one `key:value` pair. -/
def addFlagStr (cmd flagName value : String) : String :=
  cmd ++ (" --" ++ flagName ++ " " ++ quote value)

/-- `_handle_add_flags(cmd, book)`.  The `ADD_FLAGS` dict is iterated in
insertion order: authors, cover, identifiers, isbn, languages, series,
series_index, tags, title.  A populated field is appended with its flag
name; the identifiers mapping emits one `--identifier key:value` flag per
entry and then `break`s out of the field scan, so no later field is
rendered once identifiers is populated. -/
def handle_add_flags (cmd : String) (book : Option Book) : String :=
  match book with
  | none => cmd
  | some b =>
    let cmd := if b.authors ≠ [] then
        addFlagStr cmd "authors" (join_list b.authors " & ") else cmd
    let cmd := if b.cover ≠ "" then addFlagStr cmd "cover" b.cover else cmd
    if b.identifiers ≠ [] then
      b.identifiers.foldl
        (fun c kv => addFlagStr c "identifier" (kv.1 ++ ":" ++ kv.2)) cmd
    else
      let cmd := if b.isbn ≠ "" then addFlagStr cmd "isbn" b.isbn else cmd
      let cmd := if b.languages ≠ [] then
          addFlagStr cmd "languages" (join_list b.languages ",") else cmd
      let cmd := if b.series ≠ "" then addFlagStr cmd "series" b.series else cmd
      let cmd := if b.series_index ≠ "" then
          addFlagStr cmd "series-index" b.series_index else cmd
      let cmd := if b.tags ≠ [] then
          addFlagStr cmd "tags" (join_list b.tags ",") else cmd
      if b.title ≠ "" then addFlagStr cmd "title" b.title else cmd

/-- Append one rendered update flag: `cmd += f" --field {value}"` where
`value = quote(f"{field}:{value}")`. -/
def updFieldStr (cmd field value : String) : String :=
  cmd ++ (" --field " ++ quote (field ++ ":" ++ value))

/-- `_handle_update_flags(cmd, book)`.  The `UPDATE_FLAGS` list is scanned in
order: author_sort, authors, comments, id, identifiers, languages, pubdate,
publisher, rating, series, series_index, size, tags, timestamp, title.  The
identifiers mapping renders its entries as `key:value`, joined with a comma
via `join_list`, as one `--field identifiers:...` flag, and then `break`s
out of the scan. -/
def handle_update_flags (cmd : String) (book : Option Book) : String :=
  match book with
  | none => cmd
  | some b =>
    let cmd := if b.author_sort ≠ "" then
        updFieldStr cmd "author_sort" b.author_sort else cmd
    let cmd := if b.authors ≠ [] then
        updFieldStr cmd "authors" (join_list b.authors " & ") else cmd
    let cmd := if b.comments ≠ "" then updFieldStr cmd "comments" b.comments else cmd
    let cmd := if b.id ≠ 0 then updFieldStr cmd "id" (toString b.id) else cmd
    if b.identifiers ≠ [] then
      cmd ++ (" --field " ++ "identifiers" ++ ":" ++
        quote (join_list (b.identifiers.map (fun kv => kv.1 ++ ":" ++ kv.2)) ","))
    else
      let cmd := if b.languages ≠ [] then
          updFieldStr cmd "languages" (join_list b.languages ",") else cmd
      let cmd := if b.pubdate ≠ "" then updFieldStr cmd "pubdate" b.pubdate else cmd
      let cmd := if b.publisher ≠ "" then
          updFieldStr cmd "publisher" b.publisher else cmd
      let cmd := if b.rating ≠ "" then updFieldStr cmd "rating" b.rating else cmd
      let cmd := if b.series ≠ "" then updFieldStr cmd "series" b.series else cmd
      let cmd := if b.series_index ≠ "" then
          updFieldStr cmd "series_index" b.series_index else cmd
      let cmd := if b.size ≠ "" then updFieldStr cmd "size" b.size else cmd
      let cmd := if b.tags ≠ [] then
          updFieldStr cmd "tags" (join_list b.tags ",") else cmd
      let cmd := if b.timestamp ≠ "" then
          updFieldStr cmd "timestamp" b.timestamp else cmd
      if b.title ≠ "" then updFieldStr cmd "title" b.title else cmd

/-! ## The command runner `_run` with its exclusive lock -/

/-- Possible behaviours of the external `subprocess.run` call. -/
inductive ProcBehavior where
  | succeed (stdout stderr : String)
  | exitNonzero (code : Int) (stdout stderr : String)
  | execMissing (msg : String)
  deriving DecidableEq, Repr

/-- Observable events of one `_run` call. -/
inductive Ev where
  | acquire
  | invoke
  | release
  deriving DecidableEq, Repr

/-- `_run(cmd)` with the mutex state made explicit.  The source wraps
`self.mutex.acquire()` and `subprocess.run(...)` in a `try` block whose
`except` arms re-raise a classified error and whose `finally` arm always
runs `self.mutex.release()`.  Acquiring a lock that is already held blocks
forever, modelled as result `none` with no events.  Otherwise every path —
success, `FileNotFoundError`, and `CalledProcessError` classified as either
concurrency or runtime failure — performs acquire, invoke, release in that
order and leaves the lock free. -/
def runWithLock (locked : Bool) (cmd : String) (proc : ProcBehavior) :
    Option (Except PyErr (String × String)) × Bool × List Ev :=
  if locked then (none, locked, [])
  else
    let result : Except PyErr (String × String) :=
      match proc with
      | .execMissing msg =>
          .error (.fileNotFound ("Executable could not be found.\n\n" ++ msg))
      | .exitNonzero code out err =>
          if matchConcurrency err then .error (.concurrencyError cmd code)
          else .error (.runtimeError cmd code out err)
      | .succeed out err => .ok (out, err)
    (some result, false, [.acquire, .invoke, .release])

/-! ## Orchestrator operations

The external process and the Python `json` library are abstracted as an
environment: `run` gives `self._run`'s outcome per command string, and
`jsonBooks` gives the combined outcome of `json.loads` on a `calibredb list`
stdout followed by `Book(**d)` construction (`none` models a
`json.JSONDecodeError`). -/

/-- Abstract environment for one operation. -/
structure Env where
  run : String → Except PyErr (String × String)
  jsonBooks : String → Option (List Book)
  pathExists : String → Bool

/-- The exact `calibredb list` command string built by `get_book`. -/
def getBookCmd (w : Wrapper) (id : Int) : String :=
  w.cdb_with_lib ++ " list --for-machine --fields=all --search=id:" ++
    toString id ++ " --limit=1"

/-- `get_book(id)`: validate the id, run the filtered list query, decode the
JSON (a decode failure is caught and yields `None`), and return the single
book only when exactly one element came back.  The second component is the
list of external commands invoked. -/
def get_book (w : Wrapper) (env : Env) (id : Int) :
    Except PyErr (Option Book) × List String :=
  match validate_id id with
  | .error e => (.error e, [])
  | .ok _ =>
    let cmd := getBookCmd w id
    match env.run cmd with
    | .error e => (.error e, [cmd])
    | .ok (out, _) =>
      match env.jsonBooks out with
      | none => (.ok none, [cmd])
      | some bs =>
        match bs with
        | [b] => (.ok (some b), [cmd])
        | _ => (.ok none, [cmd])

/-- `add_format(id, replace, data_file)`: validate the id, then build
`... add_format {id}` plus ` --dont-replace` when `replace` is set and
` --as-extra-data-file` when `data_file` is set, and run it. -/
def add_format (w : Wrapper) (env : Env) (id : Int)
    (replace : Bool) (data_file : Bool) : Except PyErr String × List String :=
  match validate_id id with
  | .error e => (.error e, [])
  | .ok _ =>
    let cmd := w.cdb_with_lib ++ " add_format " ++ toString id
    let cmd := if replace then cmd ++ " --dont-replace" else cmd
    let cmd := if data_file then cmd ++ " --as-extra-data-file" else cmd
    match env.run cmd with
    | .error e => (.error e, [cmd])
    | .ok (out, _) => (.ok out, [cmd])

/-- `remove_format(id, format)`. -/
def remove_format (w : Wrapper) (env : Env) (id : Int) (format : String) :
    Except PyErr String × List String :=
  match validate_id id with
  | .error e => (.error e, [])
  | .ok _ =>
    let cmd := w.cdb_with_lib ++ " remove_format " ++ toString id ++ " " ++ format
    match env.run cmd with
    | .error e => (.error e, [cmd])
    | .ok (out, _) => (.ok out, [cmd])

/-- `show_metadata(id)`. -/
def show_metadata (w : Wrapper) (env : Env) (id : Int) :
    Except PyErr String × List String :=
  match validate_id id with
  | .error e => (.error e, [])
  | .ok _ =>
    let cmd := w.cdb_with_lib ++ " show_metadata --as-opf " ++ toString id
    match env.run cmd with
    | .error e => (.error e, [cmd])
    | .ok (out, _) => (.ok out, [cmd])

/-- Python truthiness of the optional `metadata_path` argument
(`None` and the empty string are falsy). -/
def truthyStrOpt : Option String → Bool
  | none => false
  | some s => s ≠ ""

/-- `set_metadata(id, book, metadata_path)`: validate the id; check the book
exists via `get_book` (returning the sentinel `-1` when it does not); then
either run with the metadata file path (which must exist), or with the
update flags built from the book, or raise `ValueError` when neither was
supplied. -/
def set_metadata (w : Wrapper) (env : Env) (id : Int)
    (book : Option Book) (metadata_path : Option String) :
    Except PyErr Int × List String :=
  match validate_id id with
  | .error e => (.error e, [])
  | .ok _ =>
    match get_book w env id with
    | (.error e, tr) => (.error e, tr)
    | (.ok none, tr) => (.ok (-1), tr)
    | (.ok (some _), tr) =>
      let cmd := w.cdb_with_lib ++ " set_metadata " ++ toString id
      if truthyStrOpt metadata_path then
        let p := metadata_path.getD ""
        if !env.pathExists p then
          (.error (.fileNotFound ("Metadata file " ++ p ++ " does not exist")), tr)
        else
          let cmd := cmd ++ " " ++ p
          match env.run cmd with
          | .error e => (.error e, tr ++ [cmd])
          | .ok _ => (.ok id, tr ++ [cmd])
      else
        match book with
        | some b =>
          let cmd := handle_update_flags cmd (some b)
          match env.run cmd with
          | .error e => (.error e, tr ++ [cmd])
          | .ok _ => (.ok id, tr ++ [cmd])
        | none => (.error (.valueError "No metadata given for update"), tr)

/-! ## The add pipeline -/

/-- `AUTOMERGE_VALID_VALUES`. -/
def AUTOMERGE_VALID_VALUES : List String := ["overwrite", "new_record", "ignore"]

/-- Automerge normalization at the start of `_run_add`: a recognized policy
is appended as given; anything else is replaced by `ignore` with a logged
warning (second component). -/
def automergeCmd (cmd : String) (automerge : String) : String × Bool :=
  if automerge ∈ AUTOMERGE_VALID_VALUES then
    (cmd ++ " --automerge=" ++ automerge, false)
  else (cmd ++ " --automerge=ignore", true)

/-- `_run_add(cmd, book, automerge)`: normalize the automerge policy, append
the add flags, run the command, and classify its output. -/
def run_add (env : Env) (cmd0 : String) (book : Option Book)
    (automerge : String) : Except PyErr (List String) × List String :=
  let cmd1 := (automergeCmd cmd0 automerge).1
  let cmd := handle_add_flags cmd1 book
  match env.run cmd with
  | .error e => (.error e, [cmd])
  | .ok (out, stderr) => (run_add_classify out stderr, [cmd])

/-- `add_one(book_path, book, automerge)`: the book file must exist;
then delegate to `_run_add` on `... add {book_path}`. -/
def add_one (w : Wrapper) (env : Env) (book_path : String)
    (book : Option Book) (automerge : String) :
    Except PyErr (List String) × List String :=
  if !env.pathExists book_path then
    (.error (.fileNotFound ("Failed to find book at " ++ book_path)), [])
  else run_add env (w.cdb_with_lib ++ " add " ++ book_path) book automerge

/-! ## Helper lemmas -/

/-- Python `split` always yields at least one part: the classifier's
`len(book_ids) < 1` guard can only fire on an empty list, which the split
never produces. -/
theorem splitCSAux_ne_nil (acc : List Char) (l : List Char) :
    splitCSAux acc l ≠ [] := by
  induction acc, l using splitCSAux.induct <;> simp_all [splitCSAux]

theorem pySplitCS_length_pos (s : String) : 1 ≤ (pySplitCS s).length := by
  have h := splitCSAux_ne_nil [] s.data
  unfold pySplitCS
  cases hl : splitCSAux [] s.data with
  | nil => exact absurd hl h
  | cons a t => simp

theorem str_append_empty (s : String) : s ++ "" = s := by
  cases s
  simp [String.append]

/-- When the id is positive, `validate_id` passes. -/
theorem validate_id_pos (id : Int) (h : 0 < id) : validate_id id = .ok () := by
  unfold validate_id
  rw [if_neg (by omega)]

/-- When the id is positive, `get_book` issues exactly its one list query. -/
theorem get_book_trace (w : Wrapper) (env : Env) (id : Int) (h : 0 < id) :
    (get_book w env id).2 = [getBookCmd w id] := by
  unfold get_book
  rw [validate_id_pos id h]
  rcases henv : env.run (getBookCmd w id) with e | ⟨out, err⟩
  · simp [henv]
  · rcases hj : env.jsonBooks out with _ | bs
    · simp [henv, hj]
    · rcases bs with _ | ⟨b, _ | ⟨b2, rest⟩⟩ <;> simp [henv, hj]

/-! ## Concrete fixtures used by witnesses and counterexamples -/

/-- A concrete wrapper configuration. -/
def w0 : Wrapper := { cdb := "/opt/calibredb", lib := "/books" }

/-- A book record with every field unset. -/
def book0 : Book := {}

/-- Environment: every command succeeds with empty output; list output
decodes to an empty list (no books). -/
def env0 : Env :=
  { run := fun _ => .ok ("", "")
    jsonBooks := fun _ => some []
    pathExists := fun _ => true }

/-- Environment: every command succeeds; list output decodes to exactly one
book. -/
def env1 : Env :=
  { run := fun _ => .ok ("[]", "")
    jsonBooks := fun _ => some [book0]
    pathExists := fun _ => true }

/-- Environment: every command succeeds but list output fails to decode as
JSON. -/
def env2 : Env :=
  { run := fun _ => .ok ("garbage", "")
    jsonBooks := fun _ => none
    pathExists := fun _ => true }

/-! ## Claim theorems -/

/-- Claim C1 (code-bug evidence): the claim says the add output
`"Added book ids: 7, 8"` yields the id list `[7, 8]`, as the merged pattern
does; but `BOOK_ADDED_REGEX`'s character class lacks the space, so the match
captures only `"7,"` and the classifier returns the single-element list
`["7,"]`, not `["7", "8"]`.  The merged pattern on the same ids parses
correctly, which the second conjunct records. -/
theorem c1_added_regex_divergence :
    run_add_classify "Added book ids: 7, 8" "" = .ok ["7,"] ∧
    run_add_classify "Merged book ids: 7, 8" "" = .ok ["7", "8"] ∧
    (["7,"] : List String) ≠ ["7", "8"] ∧
    matchAdded "Added book ids: 7, 8" = some "7," :=
  ⟨rfl, rfl, by decide, by decide⟩

/-- Claim C3: the add-output classifier tries its patterns in the fixed
order conflict, merged, added; the conflict pattern on stderr wins
unconditionally (regardless of stdout, so even when stdout matches the added
pattern), and when no pattern matches a generic unclassified-output error is
raised. -/
theorem c3_classification_priority (out stderr : String) :
    (matchIgnored stderr = true →
      run_add_classify out stderr = .error (.existingItem
        ("Book " ++ pyStripNlSpace out ++
          " already exists. Include automerge=overwrite to overwrite."))) ∧
    (matchIgnored stderr = false → ∀ g, matchMerged out = some g →
      run_add_classify out stderr = .ok (pySplitCS g)) ∧
    (matchIgnored stderr = false → matchMerged out = none →
      ∀ g, matchAdded out = some g →
        run_add_classify out stderr = .ok (pySplitCS g)) ∧
    (matchIgnored stderr = false → matchMerged out = none →
      matchAdded out = none →
        run_add_classify out stderr = .error (.unexpected
          "Could not parse calibredb add output, something went wrong...")) := by
  refine ⟨fun h => ?_, fun h g hg => ?_, fun h hm g hg => ?_, fun h hm ha => ?_⟩
  · simp [run_add_classify, h]
  · simp [run_add_classify, h, hg, Nat.not_lt.mpr (pySplitCS_length_pos g)]
  · simp [run_add_classify, h, hm, hg, Nat.not_lt.mpr (pySplitCS_length_pos g)]
  · simp [run_add_classify, h, hm, ha]

/-- Witness for C3 at concrete outputs: a stderr matching the already-exists
pattern forces the conflict outcome even though stdout matches the added
pattern; merged and added stdout classify to their id lists; unmatchable
output raises the generic error. -/
theorem c3_classification_priority_witness :
    matchIgnored "The following books were not added as they already exist: /b.epub" = true ∧
    run_add_classify "Added book ids: 7"
        "The following books were not added as they already exist: /b.epub" =
      .error (.existingItem
        ("Book " ++ pyStripNlSpace "Added book ids: 7" ++
          " already exists. Include automerge=overwrite to overwrite.")) ∧
    run_add_classify "Merged book ids: 3" "" = .ok (pySplitCS "3") ∧
    run_add_classify "Added book ids: 3" "" = .ok (pySplitCS "3") ∧
    run_add_classify "junk" "" = .error (.unexpected
      "Could not parse calibredb add output, something went wrong...") :=
  ⟨by decide,
   (c3_classification_priority "Added book ids: 7"
      "The following books were not added as they already exist: /b.epub").1
     (by decide),
   (c3_classification_priority "Merged book ids: 3" "").2.1 (by decide) "3" (by decide),
   (c3_classification_priority "Added book ids: 3" "").2.2.1 (by decide) (by decide)
     "3" (by decide),
   (c3_classification_priority "junk" "").2.2.2 (by decide) (by decide) (by decide)⟩

/-- Claim C4: `_run` acquires the single exclusive lock before the external
invocation and releases it on every exit path — success, non-zero exit
(concurrency- or runtime-classified) and executable-not-found — so the lock
is free afterwards and a subsequent call is never blocked. -/
theorem c4_lock_scoped_release (cmd : String) (proc : ProcBehavior) :
    (runWithLock false cmd proc).2.1 = false ∧
    (runWithLock false cmd proc).2.2 = [Ev.acquire, Ev.invoke, Ev.release] ∧
    ((runWithLock false cmd proc).1).isSome = true ∧
    (∀ cmd2 proc2,
      ((runWithLock (runWithLock false cmd proc).2.1 cmd2 proc2).1).isSome = true) := by
  refine ⟨?_, ?_, ?_, ?_⟩
  · cases proc <;> simp [runWithLock]
  · cases proc <;> simp [runWithLock]
  · cases proc <;> simp [runWithLock]
  · intro cmd2 proc2
    cases proc <;> cases proc2 <;> simp [runWithLock]

/-- Claim C7: an automerge value outside the valid set is normalized to
`ignore` (with a logged warning) and is never rejected — the add pipeline
always proceeds to exactly one external invocation — while a valid value is
used as given. -/
theorem c7_automerge_policy (cmd a : String) :
    (a ∉ AUTOMERGE_VALID_VALUES →
      automergeCmd cmd a = (cmd ++ " --automerge=ignore", true)) ∧
    (a ∈ AUTOMERGE_VALID_VALUES →
      automergeCmd cmd a = (cmd ++ " --automerge=" ++ a, false)) ∧
    (∀ env book, (run_add env cmd book a).2 =
      [handle_add_flags (automergeCmd cmd a).1 book]) := by
  refine ⟨fun h => by simp [automergeCmd, h], fun h => by simp [automergeCmd, h], ?_⟩
  intro env book
  unfold run_add
  rcases h : env.run (handle_add_flags (automergeCmd cmd a).1 book) with e | ⟨o, s⟩ <;>
    simp [h]

/-- Witness for C7: the unrecognized value `"bogus"` is replaced by the
`ignore` flag with a warning, and the valid value `"overwrite"` is used as
given without one. -/
theorem c7_automerge_policy_witness :
    ("bogus" ∉ AUTOMERGE_VALID_VALUES) ∧
    automergeCmd "cdb add" "bogus" = ("cdb add --automerge=ignore", true) ∧
    ("overwrite" ∈ AUTOMERGE_VALID_VALUES) ∧
    automergeCmd "cdb add" "overwrite" =
      ("cdb add --automerge=" ++ "overwrite", false) ∧
    (run_add env0 "cdb add" none "bogus").2 =
      [handle_add_flags (automergeCmd "cdb add" "bogus").1 none] :=
  ⟨by decide,
   (c7_automerge_policy "cdb add" "bogus").1 (by decide),
   by decide,
   (c7_automerge_policy "cdb add" "overwrite").2.1 (by decide),
   (c7_automerge_policy "cdb add" "bogus").2.2 env0 none⟩

/-- Claim C5: for every id ≤ 0, each id-addressed operation — `get_book`,
`add_format`, `remove_format`, `show_metadata`, `set_metadata` — raises the
rejected-input `ValueError` and issues no external invocation (its
invocation trace is empty). -/
theorem c5_nonpositive_id_rejected (w : Wrapper) (env : Env) (id : Int)
    (book : Option Book) (mpath : Option String) (replace data_file : Bool)
    (format : String) (h : id ≤ 0) :
    get_book w env id =
      (.error (.valueError ("Value " ++ toString id ++ " cannot be <= 0")), []) ∧
    add_format w env id replace data_file =
      (.error (.valueError ("Value " ++ toString id ++ " cannot be <= 0")), []) ∧
    remove_format w env id format =
      (.error (.valueError ("Value " ++ toString id ++ " cannot be <= 0")), []) ∧
    show_metadata w env id =
      (.error (.valueError ("Value " ++ toString id ++ " cannot be <= 0")), []) ∧
    set_metadata w env id book mpath =
      (.error (.valueError ("Value " ++ toString id ++ " cannot be <= 0")), []) := by
  have hv : validate_id id =
      .error (.valueError ("Value " ++ toString id ++ " cannot be <= 0")) := by
    unfold validate_id
    rw [if_pos h]
  refine ⟨?_, ?_, ?_, ?_, ?_⟩ <;>
    simp [get_book, add_format, remove_format, show_metadata, set_metadata, hv]

/-- Witness for C5 at id = 0. -/
theorem c5_nonpositive_id_rejected_witness :
    ((0 : Int) ≤ 0) ∧
    get_book w0 env0 0 =
      (.error (.valueError ("Value " ++ toString (0 : Int) ++ " cannot be <= 0")), []) ∧
    set_metadata w0 env0 0 none none =
      (.error (.valueError ("Value " ++ toString (0 : Int) ++ " cannot be <= 0")), []) :=
  ⟨by decide,
   (c5_nonpositive_id_rejected w0 env0 0 none none false false "EPUB" (by decide)).1,
   (c5_nonpositive_id_rejected w0 env0 0 none none false false "EPUB" (by decide)).2.2.2.2⟩

/-- Claim C6 counterexample: with a positive id, no record and no metadata
path, and a target book that exists, `set_metadata` does raise the
rejected-input `ValueError` — but only after issuing the existence-check
list invocation, so the error is NOT raised before any external invocation
as the claim states. -/
theorem c6_reject_after_probe_cex :
    (set_metadata w0 env1 1 none none).1 =
      .error (.valueError "No metadata given for update") ∧
    (set_metadata w0 env1 1 none none).2 = [getBookCmd w0 1] ∧
    [getBookCmd w0 1] ≠ ([] : List String) :=
  ⟨rfl, rfl, by decide⟩

/-- Claim C6 as amended: for every id > 0, `set_metadata` with neither a
record nor a metadata path first issues the existence-check invocation; when
the target exists it then raises the rejected-input error (with exactly that
one invocation issued), and when the target does not exist it returns the
sentinel -1 instead of raising. -/
theorem c6_amended_reject_after_existence_check (w : Wrapper) (env : Env)
    (id : Int) (h : 0 < id) :
    ((get_book w env id).1 = .ok none →
      set_metadata w env id none none = (.ok (-1), [getBookCmd w id])) ∧
    (∀ b, (get_book w env id).1 = .ok (some b) →
      set_metadata w env id none none =
        (.error (.valueError "No metadata given for update"), [getBookCmd w id])) := by
  have ht := get_book_trace w env id h
  have hfull : get_book w env id = ((get_book w env id).1, [getBookCmd w id]) := by
    rw [← ht]
  constructor
  · intro h1
    unfold set_metadata
    rw [validate_id_pos id h, hfull, h1]
  · intro b h1
    unfold set_metadata
    rw [validate_id_pos id h, hfull, h1]
    simp [truthyStrOpt]

/-- Witness for amended C6: with one book found the rejection comes after
the probe invocation; with a JSON decode failure the sentinel -1 is
returned. -/
theorem c6_amended_witness :
    ((0 : Int) < 1) ∧
    set_metadata w0 env2 1 none none = (.ok (-1), [getBookCmd w0 1]) ∧
    set_metadata w0 env1 1 none none =
      (.error (.valueError "No metadata given for update"), [getBookCmd w0 1]) :=
  ⟨by decide,
   (c6_amended_reject_after_existence_check w0 env2 1 (by decide)).1 rfl,
   (c6_amended_reject_after_existence_check w0 env1 1 (by decide)).2 book0 rfl⟩

/-- Claim C9: for a positive id, when the list output fails to decode as
JSON, or decodes to a list whose length is not one, `get_book` returns the
"not found" value `None` instead of raising. -/
theorem c9_unparsable_list_output (w : Wrapper) (env : Env) (id : Int)
    (h : 0 < id) (out err : String)
    (hrun : env.run (getBookCmd w id) = .ok (out, err)) :
    (env.jsonBooks out = none →
      get_book w env id = (.ok none, [getBookCmd w id])) ∧
    (∀ bs, env.jsonBooks out = some bs → bs.length ≠ 1 →
      get_book w env id = (.ok none, [getBookCmd w id])) := by
  constructor
  · intro hj
    unfold get_book
    rw [validate_id_pos id h]
    simp [hrun, hj]
  · intro bs hj hlen
    unfold get_book
    rw [validate_id_pos id h]
    rcases bs with _ | ⟨b, _ | ⟨b2, rest⟩⟩
    · simp [hrun, hj]
    · simp at hlen
    · simp [hrun, hj]

/-- Witness for C9: with a decode failure and with an empty decoded list,
`get_book` returns the same `None` signal as a missing book. -/
theorem c9_unparsable_list_output_witness :
    ((0 : Int) < 1) ∧
    get_book w0 env2 1 = (.ok none, [getBookCmd w0 1]) ∧
    get_book w0 env0 1 = (.ok none, [getBookCmd w0 1]) :=
  ⟨by decide,
   (c9_unparsable_list_output w0 env2 1 (by decide) "garbage" "" rfl).1 rfl,
   (c9_unparsable_list_output w0 env0 1 (by decide) "" "" rfl).2 [] rfl (by decide)⟩

/-- When the id is positive, the command `add_format` builds and runs is the
base string plus the two optional flags in source order. -/
theorem add_format_trace (w : Wrapper) (env : Env) (id : Int)
    (replace data_file : Bool) (h : 0 < id) :
    (add_format w env id replace data_file).2 =
      [w.cdb_with_lib ++ " add_format " ++ toString id ++
        (if replace then " --dont-replace" else "") ++
        (if data_file then " --as-extra-data-file" else "")] := by
  unfold add_format
  rw [validate_id_pos id h]
  cases replace <;> cases data_file <;>
    · simp only [if_true, if_false, Bool.false_eq_true, str_append_empty]
      rcases henv : env.run _ with e | ⟨o, s⟩ <;> simp [henv, str_append_empty]

/-- Claim C10: the `replace` parameter of `add_format` maps to the external
tool's `--dont-replace` option: with `replace` set the built command carries
the flag, and with `replace` unset the very same command is built without
it; the two concrete commands at id 3 are given explicitly. -/
theorem c10_replace_maps_to_dont_replace (w : Wrapper) (env : Env)
    (id : Int) (data_file : Bool) (h : 0 < id) :
    (∃ pre suf,
      (add_format w env id true data_file).2 = [pre ++ " --dont-replace" ++ suf] ∧
      (add_format w env id false data_file).2 = [pre ++ suf]) ∧
    (add_format w0 env0 3 true false).2 =
      ["/opt/calibredb --with-library /books add_format 3 --dont-replace"] ∧
    (add_format w0 env0 3 false false).2 =
      ["/opt/calibredb --with-library /books add_format 3"] := by
  refine ⟨⟨w.cdb_with_lib ++ " add_format " ++ toString id,
          if data_file then " --as-extra-data-file" else "", ?_, ?_⟩, ?_, ?_⟩
  · rw [add_format_trace w env id true data_file h]
    simp
  · rw [add_format_trace w env id false data_file h]
    simp [str_append_empty]
  · rfl
  · rfl

/-- Witness for C10 at id = 3. -/
theorem c10_replace_maps_to_dont_replace_witness :
    ((0 : Int) < 3) ∧
    (∃ pre suf,
      (add_format w0 env0 3 true false).2 = [pre ++ " --dont-replace" ++ suf] ∧
      (add_format w0 env0 3 false false).2 = [pre ++ suf]) :=
  ⟨by decide, (c10_replace_maps_to_dont_replace w0 env0 3 false (by decide)).1⟩

/-- A record whose only populated field is the identifiers mapping of the
claim's example. -/
def bkC2 : Book := { identifiers := [("isbn", "123"), ("x", "y")] }

/-- The witness record for the amended C2: identifiers populated together
with fields that come after identifiers in both field scans. -/
def bkC2w : Book :=
  { identifiers := [("isbn", "123"), ("x", "y")]
    title := "T", isbn := "Z", tags := ["t"] }

/-- Claim C2 counterexample: for add operations the identifiers mapping
`{"isbn": "123", "x": "y"}` is NOT rendered as the single joined flag
`--identifier isbn:123,x:y`; the source emits one `--identifier key:value`
flag per entry. -/
theorem c2_identifiers_single_flag_cex :
    handle_add_flags "cdb add" (some bkC2) =
      "cdb add --identifier isbn:123 --identifier x:y" ∧
    handle_add_flags "cdb add" (some bkC2) ≠
      "cdb add --identifier isbn:123,x:y" :=
  ⟨rfl, by decide⟩

/-- Claim C2 as amended: for add operations each identifiers entry is
emitted as its own `--identifier key:value` flag (entries are not joined),
while for update operations the entries are rendered `key:value`, joined
with `,`, and emitted as one `--field identifiers:...` flag; in both flag
scans the identifiers field is terminal — the fields after it are never
appended once identifiers is populated (the book's remaining fields here are
arbitrary). -/
theorem c2_amended_identifiers_rendering (cmd : String)
    (m : List (String × String)) (b : Book) (hm : m ≠ [])
    (hid : b.identifiers = m) (ha : b.authors = []) (hc : b.cover = "")
    (has : b.author_sort = "") (hcm : b.comments = "") (hbid : b.id = 0) :
    handle_add_flags cmd (some b) =
      m.foldl (fun c kv => addFlagStr c "identifier" (kv.1 ++ ":" ++ kv.2)) cmd ∧
    handle_update_flags cmd (some b) =
      cmd ++ (" --field identifiers:" ++
        quote (join_list (m.map (fun kv => kv.1 ++ ":" ++ kv.2)) ",")) := by
  have e : (" --field " ++ "identifiers" ++ ":" : String) = " --field identifiers:" :=
    rfl
  constructor
  · simp [handle_add_flags, hid, ha, hc, hm]
  · simp [handle_update_flags, hid, ha, has, hcm, hbid, hm, e]

/-- Witness for amended C2: with title, isbn and tags also populated, the
rendered add and update commands stop at the identifiers flag(s). -/
theorem c2_amended_identifiers_rendering_witness :
    ([("isbn", "123"), ("x", "y")] : List (String × String)) ≠ [] ∧
    handle_add_flags "c" (some bkC2w) =
      ([("isbn", "123"), ("x", "y")] : List (String × String)).foldl
        (fun c kv => addFlagStr c "identifier" (kv.1 ++ ":" ++ kv.2)) "c" ∧
    handle_update_flags "c" (some bkC2w) =
      "c" ++ (" --field identifiers:" ++
        quote (join_list
          (([("isbn", "123"), ("x", "y")] : List (String × String)).map
            (fun kv => kv.1 ++ ":" ++ kv.2)) ",")) := by
  have h := c2_amended_identifiers_rendering "c" [("isbn", "123"), ("x", "y")]
    bkC2w (by decide) rfl rfl rfl rfl rfl rfl
  exact ⟨by decide, h.1, h.2⟩

/-- Claim C8: the authors list joins with the ampersand separator and other
list fields join with the comma (elements trimmed first, as the concrete
join shows), and the resulting flag value is shell-quoted exactly when it
contains a space, emitted bare (just stripped) otherwise. -/
theorem c8_list_join_and_quoting (cmd : String)
    (authors tags langs : List String) (s : String)
    (ha : authors ≠ []) (htg : tags ≠ []) (hl : langs ≠ []) :
    handle_add_flags cmd (some { authors := authors }) =
      cmd ++ (" --authors " ++ quote (join_list authors " & ")) ∧
    handle_add_flags cmd (some { tags := tags }) =
      cmd ++ (" --tags " ++ quote (join_list tags ",")) ∧
    handle_add_flags cmd (some { languages := langs }) =
      cmd ++ (" --languages " ++ quote (join_list langs ",")) ∧
    join_list ["A B ", " C"] " & " = "A B & C" ∧
    (containsSpace (pyStrip s) = true →
      ∃ t, quote s = "\x27" ++ t ++ "\x27") ∧
    (containsSpace (pyStrip s) = false → quote s = pyStrip s) := by
  have ea : (" --" ++ "authors" ++ " " : String) = " --authors " := rfl
  have et : (" --" ++ "tags" ++ " " : String) = " --tags " := rfl
  have el : (" --" ++ "languages" ++ " " : String) = " --languages " := rfl
  refine ⟨?_, ?_, ?_, by decide, fun h => ?_, fun h => ?_⟩
  · simp [handle_add_flags, addFlagStr, ha, ea]
  · simp [handle_add_flags, addFlagStr, htg, et]
  · simp [handle_add_flags, addFlagStr, hl, el]
  · have hmem : ∃ c ∈ (pyStrip s).data, decide (c = ' ') = true := by
      simpa [containsSpace, List.any_eq_true] using h
    obtain ⟨c, hcmem, hcp⟩ := hmem
    have hcsp : c = ' ' := of_decide_eq_true hcp
    subst hcsp
    have hne : pyStrip s ≠ "" := by
      intro he
      rw [he] at hcmem
      simp at hcmem
    have hunsafe : shlexFindUnsafe (pyStrip s) = true := by
      refine List.any_eq_true.mpr ⟨' ', hcmem, by decide⟩
    refine ⟨shlexEscape (pyStrip s), ?_⟩
    simp [quote, shlexQuoteStr, h, hne, hunsafe]
  · simp [quote, h]

/-- Witness for C8: a two-element authors list joins with the ampersand into
one flag value, which contains spaces and is therefore single-quoted; a
spaceless value stays bare. -/
theorem c8_list_join_and_quoting_witness :
    (["A B ", " C"] : List String) ≠ [] ∧
    handle_add_flags "c" (some { authors := ["A B ", " C"] }) =
      "c" ++ (" --authors " ++ quote (join_list ["A B ", " C"] " & ")) ∧
    join_list ["A B ", " C"] " & " = "A B & C" ∧
    containsSpace (pyStrip "A B & C") = true ∧
    (∃ t, quote "A B & C" = "\x27" ++ t ++ "\x27") ∧
    (containsSpace (pyStrip "abc") = false ∧ quote "abc" = pyStrip "abc") := by
  have h := c8_list_join_and_quoting "c" ["A B ", " C"] ["t"] ["en"] "A B & C"
    (by decide) (by decide) (by decide)
  have h2 := c8_list_join_and_quoting "c" ["A B ", " C"] ["t"] ["en"] "abc"
    (by decide) (by decide) (by decide)
  exact ⟨by decide, h.1, h.2.2.2.1, by decide, h.2.2.2.2.1 (by decide),
    by decide, h2.2.2.2.2.2 (by decide)⟩

end CalibreRest
